import Mathlib

/-!
Shallow embedding of the wardrobe-system scoring engine
(`backend/app/services/intelligent_matching.py`,
`backend/app/services/outfit_matcher.py`,
`backend/app/routers/occasion_recommendations.py`,
`backend/app/services/recommendation_services.py`).

Python floats are modelled by exact rationals (`Rat`); the arithmetic the
engine performs (sums, products, divisions of small dyadic/decimal values)
is exact in this range, so the rational model reflects the algorithm.
Python strings are modelled by `String`, operated on through their
character lists.  `int(s, 16)` is modelled on the hex-digit strings the
engine slices out of colors (sign/whitespace forms of Python int parsing
are outside the color grammar and are not modelled).  A Python statement
that raises an exception is modelled by an `Option`-valued function
returning `none`.
-/

/-- Value of an ASCII hex digit, `none` for any other character. -/
def hexVal (c : Char) : Option Nat :=
  if ('0' ≤ c ∧ c ≤ '9') then some (c.toNat - '0'.toNat)
  else if ('a' ≤ c ∧ c ≤ 'f') then some (c.toNat - 'a'.toNat + 10)
  else if ('A' ≤ c ∧ c ≤ 'F') then some (c.toNat - 'A'.toNat + 10)
  else none

/-- Accumulator loop of hex parsing. -/
def parseHexAux : List Char → Nat → Option Nat
  | [], acc => some acc
  | c :: cs, acc =>
    match hexVal c with
    | some v => parseHexAux cs (acc * 16 + v)
    | none => none

/-- Hex-digit fragment of Python `int(s, 16)`: succeeds exactly on a
nonempty string of hex digits, `none` models the `ValueError`.  Python's
full grammar additionally accepts sign and surrounding-whitespace forms
(`int("-1", 16) = -1`, `int("+1", 16) = 1`); those are modelled faithfully
by `pyIntHex` below, which agrees with this fragment on sign- and
whitespace-free slices. -/
def parseHex (l : List Char) : Option Nat :=
  if l = [] then none else parseHexAux l 0

/-- ASCII whitespace, as stripped by Python `int` before parsing. -/
def isAsciiWs (c : Char) : Bool :=
  c == ' ' || c == '\t' || c == '\n' || c == '\r' || c == '\x0b' || c == '\x0c'

/-- Python `str.strip()` of ASCII whitespace, both ends. -/
def stripAsciiWs (l : List Char) : List Char :=
  ((l.dropWhile isAsciiWs).reverse.dropWhile isAsciiWs).reverse

/-- Python `int(s, 16)` on the at-most-2-character slices the engine takes:
strip whitespace, then an optional single sign, then a nonempty run of hex
digits; `none` models the `ValueError`.  The result can be negative
(`int("-1", 16) = -1`).  Underscore and `0x`-prefix forms of the full
grammar need at least three characters and cannot occur in these slices;
non-ASCII numerals and whitespace are outside the modelled alphabet. -/
def pyIntHex (l : List Char) : Option Int :=
  match stripAsciiWs l with
  | [] => none
  | c :: rest =>
    if c = '+' then (parseHex rest).map (fun n : Nat => (n : Int))
    else if c = '-' then (parseHex rest).map (fun n : Nat => -(n : Int))
    else (parseHex (c :: rest)).map (fun n : Nat => (n : Int))

/-- Strings containing no sign and no whitespace characters: on them the
engine's slices never exercise Python int()'s sign forms, so `parseHex`
and `pyIntHex` agree. -/
def signFree (s : String) : Bool :=
  s.data.all (fun c => !(c == '+' || c == '-' || isAsciiWs c))

/-- Python `str.lower()` (ASCII range, as used by the engine's tables). -/
def toLowerStr (s : String) : String :=
  ⟨s.data.map Char.toLower⟩

/-- Python `dict.get(key, default)` over an association-list model of the
engine's static tables. -/
def dictGet {α : Type} (d : List (String × α)) (k : String) (dflt : α) : α :=
  ((d.find? (fun kv => kv.1 == k)).map Prod.snd).getD dflt

/-- Predicate: the string is exactly six hex digits after stripping leading
`#` characters (the well-formedness condition named by the spec). -/
def validHex6 (s : String) : Bool :=
  let t := s.data.dropWhile (· == '#')
  t.length == 6 && t.all (fun c => (hexVal c).isSome)

namespace ColorTheory

/-- Source `ColorTheory.hex_to_rgb` (intelligent_matching.py), faithful
model: strips leading `#`, requires length 6, parses the three 2-character
slices with Python `int(_, 16)`, and falls back to the neutral gray
`(128,128,128)` only when some slice raises `ValueError`.  Because of sign
forms the channels can be negative and the fallback is not exercised on
every malformed string (`"+1+2+3"` parses to `(1,2,3)`). -/
def hex_to_rgbPy (s : String) : Int × Int × Int :=
  let t := s.data.dropWhile (· == '#')
  if t.length = 6 then
    match pyIntHex (t.take 2), pyIntHex ((t.drop 2).take 2), pyIntHex ((t.drop 4).take 2) with
    | some r, some g, some b => (r, g, b)
    | _, _, _ => (128, 128, 128)
  else (128, 128, 128)

/-- Restriction of `hex_to_rgbPy` to the hex-digit fragment of `int(_, 16)`
(no sign/whitespace forms): the two agree on sign-free strings
(`hex_to_rgbPy_eq_cast_of_signFree`), and there every channel is a byte in
`0..255`.  The claims whose statements confine themselves to valid
6-hex-digit colors are settled against this version. -/
def hex_to_rgb (s : String) : Nat × Nat × Nat :=
  let t := s.data.dropWhile (· == '#')
  if t.length = 6 then
    match parseHex (t.take 2), parseHex ((t.drop 2).take 2), parseHex ((t.drop 4).take 2) with
    | some r, some g, some b => (r, g, b)
    | _, _, _ => (128, 128, 128)
  else (128, 128, 128)

/-- Source `colorsys.rgb_to_hsv`, faithful model on exact rationals: when
the channels are not all equal and `maxc = 0` (possible only for negative
inputs, which sign-form parses can produce), Python raises
`ZeroDivisionError` at `s = (maxc-minc) / maxc`; that is modelled by
`none`. -/
def colorsys_rgb_to_hsvPy (r g b : Rat) : Option (Rat × Rat × Rat) :=
  let maxc := max r (max g b)
  let minc := min r (min g b)
  if minc = maxc then some (0, 0, maxc)
  else if maxc = 0 then none
  else
    let s := (maxc - minc) / maxc
    let rc := (maxc - r) / (maxc - minc)
    let gc := (maxc - g) / (maxc - minc)
    let bc := (maxc - b) / (maxc - minc)
    let h := if r = maxc then bc - gc else if g = maxc then 2 + rc - bc else 4 + gc - rc
    some (h / 6 - ((h / 6 : Rat).floor : Rat), s, maxc)

/-- Source `colorsys.rgb_to_hsv` on nonnegative inputs in `[0,1]` (the
range produced by valid hex colors), where no division by zero can occur;
agrees with `colorsys_rgb_to_hsvPy` there
(`colorsys_rgb_to_hsvPy_nonneg`). -/
def colorsys_rgb_to_hsv (r g b : Rat) : Rat × Rat × Rat :=
  let maxc := max r (max g b)
  let minc := min r (min g b)
  if minc = maxc then (0, 0, maxc)
  else
    let s := (maxc - minc) / maxc
    let rc := (maxc - r) / (maxc - minc)
    let gc := (maxc - g) / (maxc - minc)
    let bc := (maxc - b) / (maxc - minc)
    let h := if r = maxc then bc - gc else if g = maxc then 2 + rc - bc else 4 + gc - rc
    (h / 6 - ((h / 6 : Rat).floor : Rat), s, maxc)

/-- Source `ColorTheory.rgb_to_hsv`: scales the byte channels to `[0,1]` and calls
`colorsys.rgb_to_hsv`. -/
def rgb_to_hsv (r g b : Nat) : Rat × Rat × Rat :=
  colorsys_rgb_to_hsv ((r : Rat) / 255) ((g : Rat) / 255) ((b : Rat) / 255)

/-- HSV triple of a color string, via `hex_to_rgb` then `rgb_to_hsv`
(the prelude shared by both branches of `_calculate_pair_harmony`). -/
def hsvOfHex (c : String) : Rat × Rat × Rat :=
  rgb_to_hsv (hex_to_rgb c).1 (hex_to_rgb c).2.1 (hex_to_rgb c).2.2

/-- Circular hue distance in degrees: `min(|a-b|, 360-|a-b|)`. -/
def hueDist (a b : Rat) : Rat :=
  min |a - b| (360 - |a - b|)

/-- The decision cascade of `_calculate_pair_harmony`, on the hue (wheel
fraction) and saturation of the two colors. -/
def pairHarmonyHSV (h1 s1 h2 s2 : Rat) : Rat :=
  if s1 < 0.2 ∨ s2 < 0.2 then 0.95
  else if hueDist (h1 * 360) (h2 * 360) < 15 then 0.9
  else if hueDist (h1 * 360) (h2 * 360) < 60 then 0.85
  else if 150 ≤ hueDist (h1 * 360) (h2 * 360) ∧ hueDist (h1 * 360) (h2 * 360) ≤ 210 then
    0.7 * (1 - |s1 - s2|)
  else if 100 ≤ hueDist (h1 * 360) (h2 * 360) ∧ hueDist (h1 * 360) (h2 * 360) ≤ 140 then 0.65
  else if 120 ≤ hueDist (h1 * 360) (h2 * 360) ∧ hueDist (h1 * 360) (h2 * 360) ≤ 180 then 0.6
  else 0.5

/-- Source `ColorTheory._calculate_pair_harmony`, restricted model (see
`hex_to_rgb`); agrees with `calculate_pair_harmonyPy` on valid hex
colors. -/
def calculate_pair_harmony (color1 color2 : String) : Rat :=
  pairHarmonyHSV (hsvOfHex color1).1 (hsvOfHex color1).2.1
    (hsvOfHex color2).1 (hsvOfHex color2).2.1

/-- Source `ColorTheory.rgb_to_hsv` on the possibly negative channels of
`hex_to_rgbPy`; `none` models the `ZeroDivisionError` from `colorsys`. -/
def rgb_to_hsvPy (r g b : Int) : Option (Rat × Rat × Rat) :=
  colorsys_rgb_to_hsvPy ((r : Rat) / 255) ((g : Rat) / 255) ((b : Rat) / 255)

/-- HSV triple of a color string under the faithful model, `none` when the
conversion raises. -/
def hsvOfHexPy (c : String) : Option (Rat × Rat × Rat) :=
  rgb_to_hsvPy (hex_to_rgbPy c).1 (hex_to_rgbPy c).2.1 (hex_to_rgbPy c).2.2

/-- Source `ColorTheory._calculate_pair_harmony`, faithful model: `none`
when either color's HSV conversion raises `ZeroDivisionError` (the color
conversions run before the decision cascade, first color first). -/
def calculate_pair_harmonyPy (color1 color2 : String) : Option Rat :=
  match hsvOfHexPy color1, hsvOfHexPy color2 with
  | some p1, some p2 => some (pairHarmonyHSV p1.1 p1.2.1 p2.1 p2.2.1)
  | _, _ => none

end ColorTheory

namespace ColorTheory

/-- Sum of `_calculate_pair_harmony` over the ordered pairs `i < j` of the
list, as produced by the nested loop of `calculate_color_harmony_score`. -/
def sumPairs : List String → Rat
  | [] => 0
  | c :: cs => (cs.map (calculate_pair_harmony c)).sum + sumPairs cs

/-- Number of pairs `i < j` visited by the nested loop
(`total_comparisons`). -/
def numPairs : List String → Nat
  | [] => 0
  | _ :: cs => cs.length + numPairs cs

/-- Source `ColorTheory.calculate_color_harmony_score`.  Python's `list(set(colors))`
(deduplication in unspecified order) is modelled by `List.dedup`; the
permutation-invariance theorem below shows the order cannot matter. -/
def calculate_color_harmony_score (colors : List String) : Rat :=
  if colors.length < 2 then 1
  else if colors.dedup.length = 1 then 1
  else if 0 < numPairs colors.dedup then
    sumPairs colors.dedup / (numPairs colors.dedup : Rat)
  else 0

/-- The value of `calculate_color_harmony_score` as a function of the
deduplicated color list only (proof device for the invariance theorem). -/
def groupHarmonyDedup (u : List String) : Rat :=
  if u.length ≤ 1 then 1
  else if 0 < numPairs u then sumPairs u / (numPairs u : Rat)
  else 0

/-- Sum of a list of fallible values; `none` (an exception in one of the
summands) aborts the whole sum, as in the Python loop. -/
def optionSum : List (Option Rat) → Option Rat
  | [] => some 0
  | none :: _ => none
  | some a :: os =>
    match optionSum os with
    | none => none
    | some b => some (a + b)

/-- Faithful counterpart of `sumPairs`: the nested harmony loop, aborted by
the first `ZeroDivisionError`. -/
def sumPairsPy : List String → Option Rat
  | [] => some 0
  | c :: cs =>
    match optionSum (cs.map (calculate_pair_harmonyPy c)) with
    | none => none
    | some a =>
      match sumPairsPy cs with
      | none => none
      | some b => some (a + b)

/-- Source `ColorTheory.calculate_color_harmony_score`, faithful model:
`none` when some pair computation raises.  Whether an exception occurs does
not depend on the (unspecified) `set` iteration order: it happens exactly
when some distinct color's HSV conversion raises and at least two distinct
colors exist. -/
def calculate_color_harmony_scorePy (colors : List String) : Option Rat :=
  if colors.length < 2 then some 1
  else if colors.dedup.length = 1 then some 1
  else
    match sumPairsPy colors.dedup with
    | none => none
    | some s =>
      some (if 0 < numPairs colors.dedup then s / (numPairs colors.dedup : Rat) else 0)

end ColorTheory

/-- The pair-harmony rule table exactly as the specification words it:
hue difference `min(|h1-h2|, 360-|h1-h2|)` in degrees, rules tried in
priority order (neutral saturation, monochromatic, analogous,
complementary, triadic, split-complementary, default). -/
def pairHarmonySpec (c1 c2 : String) : Rat :=
  let hsv1 := ColorTheory.hsvOfHex c1
  let hsv2 := ColorTheory.hsvOfHex c2
  let d := min |hsv1.1 * 360 - hsv2.1 * 360| (360 - |hsv1.1 * 360 - hsv2.1 * 360|)
  if hsv1.2.1 < 0.2 ∨ hsv2.2.1 < 0.2 then 0.95
  else if d < 15 then 0.9
  else if d < 60 then 0.85
  else if 150 ≤ d ∧ d ≤ 210 then 0.7 * (1 - |hsv1.2.1 - hsv2.2.1|)
  else if 100 ≤ d ∧ d ≤ 140 then 0.65
  else if 120 ≤ d ∧ d ≤ 180 then 0.6
  else 0.5


namespace ColorMatcher

/-- Source `ColorMatcher.hex_to_hsv` (outfit_matcher.py): strips leading `#`
and parses three slices with no length guard or fallback; `none` models an
exception — `ValueError` when a slice is not parseable by `int(_, 16)`,
or `ZeroDivisionError` from `colorsys` on sign-form negative channels. -/
def hex_to_hsv (s : String) : Option (Rat × Rat × Rat) :=
  let t := s.data.dropWhile (· == '#')
  match pyIntHex (t.take 2), pyIntHex ((t.drop 2).take 2), pyIntHex ((t.drop 4).take 2) with
  | some r, some g, some b =>
    ColorTheory.colorsys_rgb_to_hsvPy ((r : Rat) / 255) ((g : Rat) / 255) ((b : Rat) / 255)
  | _, _, _ => none

/-- Source `ColorMatcher.calculate_color_harmony` (outfit_matcher.py); `none` models
the `ValueError` escaping from `hex_to_hsv`. -/
def calculate_color_harmony (color1 color2 : String) : Option Rat :=
  match hex_to_hsv color1, hex_to_hsv color2 with
  | some (h1, s1, v1), some (h2, s2, v2) =>
    let hue_diff := min |h1 - h2| (1 - |h1 - h2|)
    let sat_diff := |s1 - s2|
    let val_diff := |v1 - v2|
    let harmony :=
      if hue_diff < 0.05 then 0.9 - (sat_diff + val_diff) * 0.5
      else if 0.45 < hue_diff ∧ hue_diff < 0.55 then 0.8 - (sat_diff + val_diff) * 0.3
      else if 0.08 < hue_diff ∧ hue_diff < 0.12 then 0.85 - (sat_diff + val_diff) * 0.4
      else if (0.3 < hue_diff ∧ hue_diff < 0.37) ∨ (0.63 < hue_diff ∧ hue_diff < 0.7) then
        0.75 - (sat_diff + val_diff) * 0.3
      else 0.5 - (sat_diff + val_diff) * 0.5
    some (max 0 (min 1 harmony))
  | _, _ => none

end ColorMatcher

namespace StyleCompatibility

/-- Source `StyleCompatibility.STYLE_COMPATIBILITY` (intelligent_matching.py). -/
def STYLE_COMPATIBILITY : List (String × List String) :=
  [("casual", ["casual", "smart-casual", "sporty", "bohemian"]),
   ("formal", ["formal", "business", "elegant", "classic"]),
   ("business", ["business", "formal", "smart-casual", "classic"]),
   ("smart-casual", ["smart-casual", "casual", "business", "classic"]),
   ("sporty", ["sporty", "casual", "athleisure"]),
   ("bohemian", ["bohemian", "casual", "vintage", "artistic"]),
   ("vintage", ["vintage", "classic", "bohemian", "retro"]),
   ("elegant", ["elegant", "formal", "classic", "sophisticated"]),
   ("classic", ["classic", "formal", "business", "elegant", "smart-casual"]),
   ("trendy", ["trendy", "casual", "smart-casual", "modern"]),
   ("artistic", ["artistic", "bohemian", "creative", "unique"]),
   ("minimalist", ["minimalist", "classic", "modern", "clean"])]

/-- Source `StyleCompatibility.calculate_style_compatibility` (intelligent_matching.py). -/
def calculate_style_compatibility (style1 style2 : String) : Rat :=
  if toLowerStr style1 = toLowerStr style2 then 1
  else if toLowerStr style2 ∈ dictGet STYLE_COMPATIBILITY (toLowerStr style1) [] then 0.8
  else if toLowerStr style1 ∈ dictGet STYLE_COMPATIBILITY (toLowerStr style2) [] then 0.8
  else 0.3

/-- Source `OccasionMatcher._get_style_formality` (defined inside `OccasionMatcher`
in the source, directly after `calculate_occasion_score`). -/
def get_style_formality (style : String) : Rat :=
  dictGet
    [("formal", 0.9), ("business", 0.8), ("elegant", 0.85), ("classic", 0.7),
     ("smart-casual", 0.5), ("casual", 0.3), ("sporty", 0.2), ("bohemian", 0.4),
     ("trendy", 0.5), ("artistic", 0.4), ("minimalist", 0.6)]
    style 0.5

end StyleCompatibility

/-- The style-compatibility rule exactly as the specification words it:
case-insensitive exact match 1.0, a listing in either direction of the
adjacency table 0.8, floor 0.3. -/
def styleCompatibilitySpec (s1 s2 : String) : Rat :=
  if toLowerStr s1 = toLowerStr s2 then 1
  else if toLowerStr s2 ∈ dictGet StyleCompatibility.STYLE_COMPATIBILITY (toLowerStr s1) [] ∨
      toLowerStr s1 ∈ dictGet StyleCompatibility.STYLE_COMPATIBILITY (toLowerStr s2) [] then
    0.8
  else 0.3

namespace OccasionMatcher

/-- One entry of `OccasionMatcher.OCCASION_STYLES`. -/
structure OccasionInfo where
  preferred_styles : List String
  avoid_styles : List String
  formality_level : Rat

/-- Source `OccasionMatcher.OCCASION_STYLES` (intelligent_matching.py). -/
def OCCASION_STYLES : List (String × OccasionInfo) :=
  [("wedding", ⟨["formal", "elegant", "classic"], ["casual", "sporty"], 0.9⟩),
   ("church", ⟨["formal", "business", "classic", "elegant"], ["casual", "sporty", "revealing"], 0.8⟩),
   ("home", ⟨["casual", "comfortable", "relaxed"], ["formal", "business"], 0.2⟩),
   ("casual", ⟨["casual", "smart-casual", "trendy"], ["formal", "business"], 0.3⟩),
   ("work", ⟨["business", "formal", "smart-casual", "classic"], ["casual", "sporty"], 0.7⟩),
   ("date", ⟨["smart-casual", "elegant", "trendy", "classic"], ["sporty", "too-casual"], 0.6⟩),
   ("party", ⟨["trendy", "elegant", "fun", "stylish"], ["business", "too-formal"], 0.5⟩)]

/-- Source `OccasionMatcher.calculate_occasion_score` (intelligent_matching.py).
The final branch of the source executes
`StyleCompatibility._get_style_formality(item_style_lower)`, but the class
`StyleCompatibility` has no attribute `_get_style_formality` (the method is
defined on `OccasionMatcher`), so that branch raises `AttributeError`;
this is modelled by `none`. -/
def calculate_occasion_score (item_style occasion : String) : Option Rat :=
  match OCCASION_STYLES.find? (fun kv => kv.1 == toLowerStr occasion) with
  | none => some 0.5
  | some kv =>
    if toLowerStr item_style ∈ kv.2.preferred_styles then some 0.9
    else if toLowerStr item_style ∈ kv.2.avoid_styles then some 0.2
    else none

/-- The occasion score the final branch of `calculate_occasion_score` was
evidently meant to compute (the claim's wording), using the formality
lookup that the source defines on `OccasionMatcher` but calls through the
wrong class. -/
def occasionScoreClaim (item_style occasion : String) : Rat :=
  match OCCASION_STYLES.find? (fun kv => kv.1 == toLowerStr occasion) with
  | none => 0.5
  | some kv =>
    if toLowerStr item_style ∈ kv.2.preferred_styles then 0.9
    else if toLowerStr item_style ∈ kv.2.avoid_styles then 0.2
    else
      max 0.3 (1 - |StyleCompatibility.get_style_formality (toLowerStr item_style) -
        kv.2.formality_level|)

end OccasionMatcher

/-- A wardrobe item as the matching algorithm receives it: a Python dict
whose fields are read with `item.get(key, default)`.  A `none` field models
a missing key. -/
structure PyItem where
  id : String
  colors : Option (List String)
  style : Option String
  category : Option String

/-- Python `str1 < str2`: lexicographic comparison by code point. -/
def lexLtChars : List Char → List Char → Bool
  | [], [] => false
  | [], _ :: _ => true
  | _ :: _, [] => false
  | a :: as, b :: bs => if a < b then true else if b < a then false else lexLtChars as bs

/-- Python `tuple(sorted([a, b]))` on two strings. -/
def pysorted2 (a b : String) : String × String :=
  if lexLtChars b.data a.data then (b, a) else (a, b)

namespace Matching

/-- The `compatible_combinations` dict of
`IntelligentMatchingAlgorithm._calculate_category_compatibility`. -/
def compatible_combinations : List ((String × String) × Rat) :=
  [(("tops", "bottoms"), 0.9),
   (("tops", "outerwear"), 0.8),
   (("bottoms", "shoes"), 0.8),
   (("tops", "accessories"), 0.7),
   (("bottoms", "accessories"), 0.7),
   (("outerwear", "accessories"), 0.6),
   (("shoes", "accessories"), 0.6)]

/-- Source `IntelligentMatchingAlgorithm._calculate_category_compatibility`:
looks up `tuple(sorted([cat1_lower, cat2_lower]))` in the dict above, then
returns 0.3 for equal categories and 0.5 otherwise. -/
def calculate_category_compatibility (category1 category2 : String) : Rat :=
  match compatible_combinations.find?
      (fun kv => kv.1 == pysorted2 (toLowerStr category1) (toLowerStr category2)) with
  | some kv => kv.2
  | none => if toLowerStr category1 = toLowerStr category2 then 0.3 else 0.5

/-- A user-preference dict as read by `_calculate_preference_score`. -/
structure UserPrefs where
  preferred_colors : List String
  preferred_styles : List String
  avoided_colors : List String

/-- Source `IntelligentMatchingAlgorithm._calculate_preference_score`; `none`
models a falsy `user_preferences` argument. -/
def calculate_preference_score (item1 item2 : PyItem) (user_preferences : Option UserPrefs) :
    Rat :=
  match user_preferences with
  | none => 0.5
  | some p =>
    let item_colors := item1.colors.getD [] ++ item2.colors.getD []
    let score1 : Rat :=
      if p.preferred_colors ≠ [] ∧ 0 < item_colors.countP (· ∈ p.preferred_colors) then
        0.5 + 0.2
      else 0.5
    let score2 : Rat :=
      if p.preferred_styles ≠ [] ∧
          0 < ([item1.style.getD "", item2.style.getD ""].countP (· ∈ p.preferred_styles)) then
        score1 + 0.2
      else score1
    let score3 : Rat :=
      if p.avoided_colors ≠ [] ∧ 0 < item_colors.countP (· ∈ p.avoided_colors) then
        score2 - 0.3
      else score2
    min 1 (max 0 score3)

/-- The occasion factor of `_calculate_item_compatibility`: 1.0 when no
occasion is given (Python `if occasion:` is false for `None` and for the
empty string), otherwise the average of the two items' occasion scores;
`none` propagates the `AttributeError` from `calculate_occasion_score`. -/
def occasionFactor (style1 style2 : String) (occasion : Option String) : Option Rat :=
  match occasion with
  | none => some 1
  | some occ =>
    if occ = "" then some 1
    else
      match OccasionMatcher.calculate_occasion_score style1 occ,
          OccasionMatcher.calculate_occasion_score style2 occ with
      | some a, some b => some ((a + b) / 2)
      | _, _ => none

/-- The weighted combination of `_calculate_item_compatibility`
(source lines 330-336): color 0.30, style 0.25, category 0.20,
occasion 0.15, preference 0.10. -/
def weighted_total (color_score : Rat) (item1 item2 : PyItem) (occasion_score : Rat)
    (user_preferences : Option UserPrefs) : Rat :=
  color_score * 0.30 +
    StyleCompatibility.calculate_style_compatibility (item1.style.getD "casual")
      (item2.style.getD "casual") * 0.25 +
    calculate_category_compatibility (item1.category.getD "") (item2.category.getD "")
      * 0.20 +
    occasion_score * 0.15 +
    calculate_preference_score item1 item2 user_preferences * 0.10

/-- Source `IntelligentMatchingAlgorithm._calculate_item_compatibility`: the
weighted composite score, clamped by `min(1.0, max(0.0, total_score))`;
`none` models an exception — the color step runs first and can raise
`ZeroDivisionError` on sign-form colors, then the occasion branch can
raise `AttributeError` through `calculate_occasion_score`. -/
def calculate_item_compatibility (item1 item2 : PyItem) (occasion : Option String)
    (user_preferences : Option UserPrefs) : Option Rat :=
  match ColorTheory.calculate_color_harmony_scorePy
      (item1.colors.getD [] ++ item2.colors.getD []) with
  | none => none
  | some color_score =>
    match occasionFactor (item1.style.getD "casual") (item2.style.getD "casual") occasion with
    | none => none
    | some occasion_score =>
      some (min 1 (max 0 (weighted_total color_score item1 item2 occasion_score
        user_preferences)))

end Matching

namespace StyleMatcher

/-- Source `StyleMatcher.STYLE_COMPATIBILITY` (outfit_matcher.py). -/
def STYLE_COMPATIBILITY : List (String × List String) :=
  [("casual", ["casual", "bohemian", "sporty", "streetwear"]),
   ("formal", ["formal", "business", "classic", "elegant"]),
   ("business", ["business", "formal", "professional", "classic"]),
   ("bohemian", ["bohemian", "casual", "vintage", "artistic"]),
   ("vintage", ["vintage", "classic", "retro", "bohemian"]),
   ("modern", ["modern", "minimalist", "contemporary", "sleek"]),
   ("minimalist", ["minimalist", "modern", "clean", "simple"]),
   ("edgy", ["edgy", "punk", "gothic", "alternative"]),
   ("romantic", ["romantic", "feminine", "soft", "elegant"]),
   ("sporty", ["sporty", "athletic", "casual", "active"])]

/-- Python `needle in hay` on strings: contiguous-substring test. -/
def isSubstring (needle hay : List Char) : Bool :=
  (List.range (hay.length + 1)).any (fun i => needle.isPrefixOf (hay.drop i))

/-- Source `StyleMatcher.calculate_style_compatibility` (outfit_matcher.py): like
the intelligent_matching variant but with an extra partial-substring tier
returning 0.6 before the 0.3 floor. -/
def calculate_style_compatibility (style1 style2 : String) : Rat :=
  if toLowerStr style1 = toLowerStr style2 then 1
  else if toLowerStr style2 ∈ dictGet STYLE_COMPATIBILITY (toLowerStr style1) [] then 0.8
  else if toLowerStr style1 ∈ dictGet STYLE_COMPATIBILITY (toLowerStr style2) [] then 0.8
  else if (dictGet STYLE_COMPATIBILITY (toLowerStr style1) []).any
      (fun style => isSubstring style.data (toLowerStr style2).data ||
        isSubstring (toLowerStr style2).data style.data) then 0.6
  else 0.3

end StyleMatcher

namespace Recommendations

/-- The `outfit_structures` list of `_generate_outfit_combinations`
(occasion_recommendations.py). -/
def outfit_structures : List (List String) :=
  [["tops", "bottoms"],
   ["tops", "bottoms", "shoes"],
   ["tops", "bottoms", "outerwear"],
   ["dresses"],
   ["dresses", "shoes"],
   ["dresses", "outerwear"]]

/-- Source `_generate_outfit_combinations` (occasion_recommendations.py): for each
structure whose categories are all present in the pool, take the first item
of each category; cap the result at 10 combinations.  `items_by_category`
groups in input order, so the first item of a category group is the first
item of the pool with that category. -/
def generate_outfit_combinations (items : List PyItem) : List (List PyItem) :=
  (outfit_structures.filterMap (fun st =>
    if st.all (fun cat => items.any (fun i => i.category.getD "unknown" == cat)) then
      let combination := st.filterMap (fun cat =>
        items.find? (fun i => i.category.getD "unknown" == cat))
      if combination.isEmpty then none else some combination
    else none)).take 10

end Recommendations

namespace RecommendationServices

/-- Occasion-specific sub-preferences of a `UserStyleProfile`
(`occasion_preferences[occ] = {"colors": [...], "styles": [...]}`). -/
structure OccasionPrefs where
  colors : List String
  styles : List String

/-- The fields of `UserStyleProfile` read by
`find_ai_matched_outfits_for_occasion` (after JSON decoding). -/
structure UserStyleProfile where
  preferred_colors : List String
  style_keywords : List String
  occasion_preferences : List (String × OccasionPrefs)

/-- The `preference_boost` computation of
`find_ai_matched_outfits_for_occasion` (recommendation_services.py):
additive +0.05/+0.05/+0.10/+0.10 boosts. -/
def preference_boost (profile : UserStyleProfile) (occasion_name : String)
    (outfit_aggregated_colors outfit_aggregated_styles : List String) : Rat :=
  let current := dictGet profile.occasion_preferences (toLowerStr occasion_name) ⟨[], []⟩
  (if outfit_aggregated_colors.any (· ∈ profile.preferred_colors) then 0.05 else 0) +
  (if outfit_aggregated_styles.any (· ∈ profile.style_keywords) then 0.05 else 0) +
  (if current.colors ≠ [] ∧ outfit_aggregated_colors.any (· ∈ current.colors) then 0.10 else 0) +
  (if current.styles ≠ [] ∧ outfit_aggregated_styles.any (· ∈ current.styles) then 0.10 else 0)

/-- The `final_match_score` combination of
`find_ai_matched_outfits_for_occasion`: the boost is capped by
`min(preference_boost, 1.0)` before entering the weighted sum. -/
def final_match_score (similarity_to_occasion_normalized internal_coherence_score
    preference_boost : Rat) : Rat :=
  0.6 * similarity_to_occasion_normalized + 0.25 * internal_coherence_score +
    0.15 * min preference_boost 1

end RecommendationServices

/-! ### Helper lemmas -/

namespace ColorTheory

theorem hueDist_comm (a b : Rat) : hueDist a b = hueDist b a := by
  unfold hueDist
  rw [abs_sub_comm]

theorem pairHarmonyHSV_comm (h1 s1 h2 s2 : Rat) :
    pairHarmonyHSV h1 s1 h2 s2 = pairHarmonyHSV h2 s2 h1 s1 := by
  unfold pairHarmonyHSV
  rw [hueDist_comm (h2 * 360) (h1 * 360), abs_sub_comm s2 s1]
  exact if_congr or_comm rfl rfl

theorem calculate_pair_harmony_comm (a b : String) :
    calculate_pair_harmony a b = calculate_pair_harmony b a := by
  unfold calculate_pair_harmony
  exact pairHarmonyHSV_comm _ _ _ _

theorem colorsys_sat_bounds (r g b : Rat) (hr : 0 ≤ r) (hg : 0 ≤ g) (hb : 0 ≤ b) :
    0 ≤ (colorsys_rgb_to_hsv r g b).2.1 ∧ (colorsys_rgb_to_hsv r g b).2.1 ≤ 1 := by
  have hminmax : min r (min g b) ≤ max r (max g b) :=
    le_trans (min_le_left _ _) (le_max_left _ _)
  have hmin0 : 0 ≤ min r (min g b) := le_min hr (le_min hg hb)
  unfold colorsys_rgb_to_hsv
  dsimp only
  by_cases h : min r (min g b) = max r (max g b)
  · rw [if_pos h]
    norm_num
  · rw [if_neg h]
    have hlt : min r (min g b) < max r (max g b) := lt_of_le_of_ne hminmax h
    have hpos : 0 < max r (max g b) := lt_of_le_of_lt hmin0 hlt
    dsimp only
    constructor
    · exact div_nonneg (by linarith) hpos.le
    · rw [div_le_one hpos]
      linarith

theorem hsvOfHex_sat_bounds (c : String) :
    0 ≤ (hsvOfHex c).2.1 ∧ (hsvOfHex c).2.1 ≤ 1 := by
  unfold hsvOfHex rgb_to_hsv
  exact colorsys_sat_bounds _ _ _ (by positivity) (by positivity) (by positivity)

theorem pairHarmonyHSV_bounds (h1 s1 h2 s2 : Rat) (hs : |s1 - s2| ≤ 1) :
    0 ≤ pairHarmonyHSV h1 s1 h2 s2 ∧ pairHarmonyHSV h1 s1 h2 s2 ≤ 1 := by
  have h0 : (0 : Rat) ≤ |s1 - s2| := abs_nonneg _
  unfold pairHarmonyHSV
  split_ifs <;> constructor <;> linarith [h0, hs]

theorem calculate_pair_harmony_bounds (a b : String) :
    0 ≤ calculate_pair_harmony a b ∧ calculate_pair_harmony a b ≤ 1 := by
  have ha := hsvOfHex_sat_bounds a
  have hb := hsvOfHex_sat_bounds b
  unfold calculate_pair_harmony
  apply pairHarmonyHSV_bounds
  rw [abs_le]
  constructor <;> linarith [ha.1, ha.2, hb.1, hb.2]

theorem sumPairs_nonneg (l : List String) : 0 ≤ sumPairs l := by
  induction l with
  | nil => simp [sumPairs]
  | cons c cs ih =>
    have hmap : 0 ≤ (cs.map (calculate_pair_harmony c)).sum := by
      apply List.sum_nonneg
      intro x hx
      obtain ⟨y, _, rfl⟩ := List.mem_map.1 hx
      exact (calculate_pair_harmony_bounds c y).1
    simpa [sumPairs] using add_nonneg hmap ih

theorem sum_le_length (l : List Rat) (h : ∀ x ∈ l, x ≤ 1) : l.sum ≤ (l.length : Rat) := by
  induction l with
  | nil => simp
  | cons x xs ih =>
    have hx := h x (by simp)
    have hxs : xs.sum ≤ (xs.length : Rat) := ih (fun y hy => h y (by simp [hy]))
    simp only [List.sum_cons, List.length_cons]
    push_cast
    linarith

theorem sumPairs_le_numPairs (l : List String) : sumPairs l ≤ (numPairs l : Rat) := by
  induction l with
  | nil => simp [sumPairs, numPairs]
  | cons c cs ih =>
    have hmap : (cs.map (calculate_pair_harmony c)).sum ≤ ((cs.map
        (calculate_pair_harmony c)).length : Rat) := by
      apply sum_le_length
      intro x hx
      obtain ⟨y, _, rfl⟩ := List.mem_map.1 hx
      exact (calculate_pair_harmony_bounds c y).2
    simp only [sumPairs, numPairs, List.length_map] at *
    push_cast
    linarith

theorem numPairs_perm {l1 l2 : List String} (h : l1.Perm l2) : numPairs l1 = numPairs l2 := by
  induction h with
  | nil => rfl
  | cons x h ih => simp only [numPairs]; rw [ih, h.length_eq]
  | swap x y l => simp only [numPairs, List.length_cons]
  | trans _ _ ih1 ih2 => rw [ih1, ih2]

theorem sumPairs_perm {l1 l2 : List String} (h : l1.Perm l2) : sumPairs l1 = sumPairs l2 := by
  induction h with
  | nil => rfl
  | cons x h ih =>
    simp only [sumPairs]
    rw [ih, (h.map (calculate_pair_harmony x)).sum_eq]
  | swap x y l =>
    simp only [sumPairs, List.map_cons, List.sum_cons]
    rw [calculate_pair_harmony_comm y x]
    ring
  | trans _ _ ih1 ih2 => rw [ih1, ih2]

theorem numPairs_pos {l : List String} (h : 2 ≤ l.length) : 0 < numPairs l := by
  match l with
  | [] => simp at h
  | [a] => simp at h
  | a :: b :: t => simp [numPairs]

theorem harmony_score_eq_dedup (l : List String) :
    calculate_color_harmony_score l = groupHarmonyDedup l.dedup := by
  unfold calculate_color_harmony_score groupHarmonyDedup
  rcases l with _ | ⟨a, _ | ⟨b, t⟩⟩
  · simp
  · simp
  · have h2 : ¬((a :: b :: t).length < 2) := by
      simp only [List.length_cons]
      omega
    rw [if_neg h2]
    by_cases h1 : (a :: b :: t).dedup.length = 1
    · rw [if_pos h1, if_pos (by omega : (a :: b :: t).dedup.length ≤ 1)]
    · have hne : (a :: b :: t).dedup ≠ [] := by
        rw [ne_eq, List.dedup_eq_nil]
        simp
      have hpos : 0 < (a :: b :: t).dedup.length := List.length_pos.2 hne
      have hlen : 2 ≤ (a :: b :: t).dedup.length := by omega
      have hnp : 0 < numPairs (a :: b :: t).dedup := numPairs_pos hlen
      rw [if_pos hnp, if_neg h1, if_neg (by omega : ¬((a :: b :: t).dedup.length ≤ 1))]

theorem groupHarmonyDedup_perm {u1 u2 : List String} (h : u1.Perm u2) :
    groupHarmonyDedup u1 = groupHarmonyDedup u2 := by
  unfold groupHarmonyDedup
  rw [h.length_eq, sumPairs_perm h, numPairs_perm h]

theorem calculate_color_harmony_score_bounds (l : List String) :
    0 ≤ calculate_color_harmony_score l ∧ calculate_color_harmony_score l ≤ 1 := by
  unfold calculate_color_harmony_score
  split_ifs with h1 h2 h3
  · norm_num
  · norm_num
  · have hn : (0 : Rat) < (numPairs l.dedup : Rat) := by exact_mod_cast h3
    constructor
    · exact div_nonneg (sumPairs_nonneg _) hn.le
    · rw [div_le_one hn]
      exact sumPairs_le_numPairs _
  · norm_num

end ColorTheory

theorem parseHexAux_all_hex {l : List Char} {acc v : Nat} (h : parseHexAux l acc = some v) :
    l.all (fun c => (hexVal c).isSome) = true := by
  induction l generalizing acc with
  | nil => simp
  | cons c cs ih =>
    unfold parseHexAux at h
    cases hv : hexVal c with
    | none => rw [hv] at h; exact absurd h (by simp)
    | some d =>
      rw [hv] at h
      simp only [List.all_cons, hv, Option.isSome_some, Bool.true_and]
      exact ih h

theorem parseHex_all_hex {l : List Char} {v : Nat} (h : parseHex l = some v) :
    l.all (fun c => (hexVal c).isSome) = true := by
  unfold parseHex at h
  by_cases hl : l = []
  · rw [if_pos hl] at h
    exact absurd h (by simp)
  · rw [if_neg hl] at h
    exact parseHexAux_all_hex h

theorem take_take_take_eq {t : List Char} (h : t.length = 6) :
    t.take 2 ++ ((t.drop 2).take 2 ++ (t.drop 4).take 2) = t := by
  have h1 : t.take 2 ++ (t.drop 2).take 2 = t.take 4 := by
    rw [show (4 : Nat) = 2 + 2 from rfl, List.take_add]
  have h2 : t.take 4 ++ (t.drop 4).take 2 = t.take 6 := by
    rw [show (6 : Nat) = 4 + 2 from rfl, List.take_add]
  calc t.take 2 ++ ((t.drop 2).take 2 ++ (t.drop 4).take 2)
      = (t.take 2 ++ (t.drop 2).take 2) ++ (t.drop 4).take 2 := by rw [List.append_assoc]
    _ = t.take 4 ++ (t.drop 4).take 2 := by rw [h1]
    _ = t.take 6 := h2
    _ = t := by rw [← h, List.take_length]

theorem hex_to_rgb_malformed {s : String} (h : validHex6 s = false) :
    ColorTheory.hex_to_rgb s = (128, 128, 128) := by
  unfold validHex6 at h
  unfold ColorTheory.hex_to_rgb
  by_cases hlen : (s.data.dropWhile (· == '#')).length = 6
  · rw [if_pos hlen]
    simp only [hlen, beq_self_eq_true, Bool.true_and] at h
    cases hp1 : parseHex ((s.data.dropWhile (· == '#')).take 2) with
    | none => rfl
    | some r =>
      cases hp2 : parseHex (((s.data.dropWhile (· == '#')).drop 2).take 2) with
      | none => rfl
      | some g =>
        cases hp3 : parseHex (((s.data.dropWhile (· == '#')).drop 4).take 2) with
        | none => rfl
        | some b =>
          exfalso
          have hall : (s.data.dropWhile (· == '#')).all (fun c => (hexVal c).isSome) = true := by
            rw [← take_take_take_eq hlen, List.all_append, List.all_append,
              parseHex_all_hex hp1, parseHex_all_hex hp2, parseHex_all_hex hp3]
            rfl
          rw [hall] at h
          exact Bool.true_eq_false.mp h
  · rw [if_neg hlen]

theorem asciiWs_not_hex {c : Char} (hws : isAsciiWs c = true) : (hexVal c).isSome = false := by
  unfold isAsciiWs at hws
  simp only [Bool.or_eq_true, beq_iff_eq] at hws
  rcases hws with ((((rfl | rfl) | rfl) | rfl) | rfl) | rfl <;> decide

theorem hex_not_ws {c : Char} (h : (hexVal c).isSome = true) : isAsciiWs c = false := by
  cases hws : isAsciiWs c
  · rfl
  · rw [asciiWs_not_hex hws] at h
    exact absurd h (by decide)

theorem dropWhile_eq_self_of {p : Char → Bool} {l : List Char} (h : ∀ c ∈ l, p c = false) :
    l.dropWhile p = l := by
  cases l with
  | nil => rfl
  | cons a as => simp [List.dropWhile_cons, h a (List.mem_cons_self a as)]

theorem stripAsciiWs_eq_self {l : List Char} (h : ∀ c ∈ l, isAsciiWs c = false) :
    stripAsciiWs l = l := by
  unfold stripAsciiWs
  rw [dropWhile_eq_self_of h,
    dropWhile_eq_self_of (fun c hc => h c (List.mem_reverse.1 hc)), List.reverse_reverse]

theorem pyIntHex_eq_parseHex {l : List Char}
    (h : ∀ c ∈ l, (c == '+' || c == '-' || isAsciiWs c) = false) :
    pyIntHex l = (parseHex l).map (fun n : Nat => (n : Int)) := by
  cases l with
  | nil => rfl
  | cons a rest =>
    have hws : ∀ c ∈ a :: rest, isAsciiWs c = false :=
      fun c hc => (Bool.or_eq_false_iff.1 (h c hc)).2
    have ha := h a (List.mem_cons_self a rest)
    have hap : a ≠ '+' := by
      intro hcon
      rw [hcon] at ha
      exact absurd ha (by decide)
    have ham : a ≠ '-' := by
      intro hcon
      rw [hcon] at ha
      exact absurd ha (by decide)
    unfold pyIntHex
    rw [stripAsciiWs_eq_self hws]
    dsimp only
    rw [if_neg hap, if_neg ham]

theorem validHex6_signFree {s : String} (h : validHex6 s = true) : signFree s = true := by
  unfold validHex6 at h
  simp only [Bool.and_eq_true] at h
  unfold signFree
  rw [List.all_eq_true]
  intro c hc
  rcases List.mem_append.1
      ((List.takeWhile_append_dropWhile (p := (· == '#')) (l := s.data)) ▸ hc) with h1 | h2
  · have hhash := List.mem_takeWhile_imp h1
    simp only [beq_iff_eq] at hhash
    subst hhash
    decide
  · have hhex : (hexVal c).isSome = true := by
      have := List.all_eq_true.1 h.2 c h2
      simpa using this
    have hp : (c == '+') = false := by
      cases hx : c == '+'
      · rfl
      · rw [beq_iff_eq] at hx
        subst hx
        exact absurd hhex (by decide)
    have hm : (c == '-') = false := by
      cases hx : c == '-'
      · rfl
      · rw [beq_iff_eq] at hx
        subst hx
        exact absurd hhex (by decide)
    simp only [hp, hm, hex_not_ws hhex, Bool.or_false, Bool.false_or, Bool.not_false]

namespace ColorTheory

theorem hex_to_rgbPy_eq_cast_of_signFree {s : String} (h : signFree s = true) :
    hex_to_rgbPy s =
      (((hex_to_rgb s).1 : Int), ((hex_to_rgb s).2.1 : Int), ((hex_to_rgb s).2.2 : Int)) := by
  have hall : ∀ c ∈ s.data, (c == '+' || c == '-' || isAsciiWs c) = false := by
    intro c hc
    have h2 := List.all_eq_true.1 h c hc
    cases hx : (c == '+' || c == '-' || isAsciiWs c)
    · rfl
    · rw [hx] at h2
      exact absurd h2 (by decide)
  have hsub : ∀ c ∈ s.data.dropWhile (· == '#'),
      (c == '+' || c == '-' || isAsciiWs c) = false :=
    fun c hc => hall c ((List.dropWhile_sublist (· == '#')).subset hc)
  have e1 : pyIntHex ((s.data.dropWhile (· == '#')).take 2) =
      (parseHex ((s.data.dropWhile (· == '#')).take 2)).map (fun n : Nat => (n : Int)) :=
    pyIntHex_eq_parseHex (fun c hc => hsub c (List.take_subset _ _ hc))
  have e2 : pyIntHex (((s.data.dropWhile (· == '#')).drop 2).take 2) =
      (parseHex (((s.data.dropWhile (· == '#')).drop 2).take 2)).map
        (fun n : Nat => (n : Int)) :=
    pyIntHex_eq_parseHex
      (fun c hc => hsub c (List.drop_subset _ _ (List.take_subset _ _ hc)))
  have e3 : pyIntHex (((s.data.dropWhile (· == '#')).drop 4).take 2) =
      (parseHex (((s.data.dropWhile (· == '#')).drop 4).take 2)).map
        (fun n : Nat => (n : Int)) :=
    pyIntHex_eq_parseHex
      (fun c hc => hsub c (List.drop_subset _ _ (List.take_subset _ _ hc)))
  unfold hex_to_rgbPy hex_to_rgb
  dsimp only
  by_cases hlen : (s.data.dropWhile (· == '#')).length = 6
  · rw [if_pos hlen, if_pos hlen, e1, e2, e3]
    cases parseHex ((s.data.dropWhile (· == '#')).take 2) <;>
      cases parseHex (((s.data.dropWhile (· == '#')).drop 2).take 2) <;>
      cases parseHex (((s.data.dropWhile (· == '#')).drop 4).take 2) <;> rfl
  · rw [if_neg hlen, if_neg hlen]
    rfl

theorem colorsys_rgb_to_hsvPy_nonneg (r g b : Rat) (hr : 0 ≤ r) (hg : 0 ≤ g) (hb : 0 ≤ b) :
    colorsys_rgb_to_hsvPy r g b = some (colorsys_rgb_to_hsv r g b) := by
  unfold colorsys_rgb_to_hsvPy colorsys_rgb_to_hsv
  dsimp only
  by_cases h : min r (min g b) = max r (max g b)
  · rw [if_pos h, if_pos h]
  · have hmin0 : 0 ≤ min r (min g b) := le_min hr (le_min hg hb)
    have hlt : min r (min g b) < max r (max g b) :=
      lt_of_le_of_ne (le_trans (min_le_left _ _) (le_max_left _ _)) h
    have hpos : 0 < max r (max g b) := lt_of_le_of_lt hmin0 hlt
    rw [if_neg h, if_neg h, if_neg hpos.ne']

theorem hsvOfHexPy_eq_of_signFree {s : String} (h : signFree s = true) :
    hsvOfHexPy s = some (hsvOfHex s) := by
  unfold hsvOfHexPy rgb_to_hsvPy
  rw [hex_to_rgbPy_eq_cast_of_signFree h]
  dsimp only
  rw [Int.cast_natCast, Int.cast_natCast, Int.cast_natCast]
  exact colorsys_rgb_to_hsvPy_nonneg _ _ _ (by positivity) (by positivity) (by positivity)

theorem calculate_pair_harmonyPy_valid {c1 c2 : String}
    (h1 : validHex6 c1 = true) (h2 : validHex6 c2 = true) :
    calculate_pair_harmonyPy c1 c2 = some (calculate_pair_harmony c1 c2) := by
  unfold calculate_pair_harmonyPy
  rw [hsvOfHexPy_eq_of_signFree (validHex6_signFree h1),
    hsvOfHexPy_eq_of_signFree (validHex6_signFree h2)]
  rfl

theorem optionSum_map_valid {c : String} {cs : List String}
    (h : ∀ x ∈ cs, calculate_pair_harmonyPy c x = some (calculate_pair_harmony c x)) :
    optionSum (cs.map (calculate_pair_harmonyPy c)) =
      some ((cs.map (calculate_pair_harmony c)).sum) := by
  induction cs with
  | nil => rfl
  | cons x xs ih =>
    simp only [List.map_cons, List.sum_cons, h x (List.mem_cons_self x xs), optionSum,
      ih (fun y hy => h y (List.mem_cons_of_mem x hy))]

theorem sumPairsPy_valid {u : List String} (h : ∀ c ∈ u, validHex6 c = true) :
    sumPairsPy u = some (sumPairs u) := by
  induction u with
  | nil => rfl
  | cons c cs ih =>
    have hpairs : ∀ x ∈ cs, calculate_pair_harmonyPy c x = some (calculate_pair_harmony c x) :=
      fun x hx => calculate_pair_harmonyPy_valid (h c (List.mem_cons_self c cs))
        (h x (List.mem_cons_of_mem c hx))
    simp only [sumPairsPy, sumPairs, optionSum_map_valid hpairs,
      ih (fun x hx => h x (List.mem_cons_of_mem c hx))]

theorem calculate_color_harmony_scorePy_valid {l : List String}
    (h : ∀ c ∈ l, validHex6 c = true) :
    calculate_color_harmony_scorePy l = some (calculate_color_harmony_score l) := by
  unfold calculate_color_harmony_scorePy calculate_color_harmony_score
  by_cases hA : l.length < 2
  · rw [if_pos hA, if_pos hA]
  · rw [if_neg hA, if_neg hA]
    by_cases hB : l.dedup.length = 1
    · rw [if_pos hB, if_pos hB]
    · rw [if_neg hB, if_neg hB, sumPairsPy_valid (fun c hc => h c (List.mem_dedup.1 hc))]

theorem colorsys_rgb_to_hsvPy_neg_zero {r : Rat} (hr : r < 0) :
    colorsys_rgb_to_hsvPy r 0 0 = none := by
  unfold colorsys_rgb_to_hsvPy
  dsimp only
  have hmin : min r (min 0 0) = r := by
    rw [min_self]
    exact min_eq_left hr.le
  have hmax : max r (max 0 0) = 0 := by
    rw [max_self]
    exact max_eq_right hr.le
  rw [hmin, hmax, if_neg hr.ne, if_pos rfl]

theorem hsvOfHexPy_sign_sample : hsvOfHexPy "-10000" = none := by
  have h1 : hex_to_rgbPy "-10000" = (-1, 0, 0) := by decide
  unfold hsvOfHexPy rgb_to_hsvPy
  rw [h1]
  dsimp only
  rw [show ((0 : Int) : Rat) / 255 = 0 by norm_num]
  exact colorsys_rgb_to_hsvPy_neg_zero (by norm_num)

theorem calculate_pair_harmonyPy_sign_sample :
    calculate_pair_harmonyPy "-10000" "#FF0000" = none := by
  unfold calculate_pair_harmonyPy
  rw [hsvOfHexPy_sign_sample]

theorem calculate_color_harmony_scorePy_sign_sample :
    calculate_color_harmony_scorePy ["-10000", "#FF0000"] = none := by
  have hsum : sumPairsPy ["-10000", "#FF0000"] = none := by
    simp [sumPairsPy, optionSum, calculate_pair_harmonyPy_sign_sample]
  unfold calculate_color_harmony_scorePy
  rw [show (["-10000", "#FF0000"] : List String).dedup = ["-10000", "#FF0000"] by decide,
    if_neg (by decide : ¬((["-10000", "#FF0000"] : List String).length < 2)),
    if_neg (by decide : ¬((["-10000", "#FF0000"] : List String).length = 1)), hsum]

end ColorTheory

namespace StyleCompatibility

theorem calculate_style_compatibility_bounds (s1 s2 : String) :
    0 ≤ calculate_style_compatibility s1 s2 ∧ calculate_style_compatibility s1 s2 ≤ 1 := by
  unfold calculate_style_compatibility
  split_ifs <;> norm_num

end StyleCompatibility

namespace OccasionMatcher

theorem calculate_occasion_score_bounds {s o : String} {r : Rat}
    (h : calculate_occasion_score s o = some r) : 0 ≤ r ∧ r ≤ 1 := by
  unfold calculate_occasion_score at h
  cases hf : OCCASION_STYLES.find? (fun kv => kv.1 == toLowerStr o) with
  | none =>
    rw [hf] at h
    obtain rfl : (0.5 : Rat) = r := Option.some.inj h
    norm_num
  | some kv =>
    rw [hf] at h
    dsimp only at h
    split_ifs at h
    · obtain rfl : (0.9 : Rat) = r := Option.some.inj h
      norm_num
    · obtain rfl : (0.2 : Rat) = r := Option.some.inj h
      norm_num

end OccasionMatcher

namespace Matching

theorem calculate_category_compatibility_bounds (c1 c2 : String) :
    0 ≤ calculate_category_compatibility c1 c2 ∧ calculate_category_compatibility c1 c2 ≤ 1 := by
  unfold calculate_category_compatibility
  cases hf : compatible_combinations.find?
      (fun kv => kv.1 == pysorted2 (toLowerStr c1) (toLowerStr c2)) with
  | none =>
    split_ifs <;> norm_num
  | some kv =>
    have hmem := List.mem_of_find?_eq_some hf
    simp only [compatible_combinations, List.mem_cons, List.not_mem_nil, or_false] at hmem
    rcases hmem with rfl | rfl | rfl | rfl | rfl | rfl | rfl <;> norm_num

theorem calculate_preference_score_bounds (i1 i2 : PyItem) (p : Option UserPrefs) :
    0 ≤ calculate_preference_score i1 i2 p ∧ calculate_preference_score i1 i2 p ≤ 1 := by
  unfold calculate_preference_score
  cases p with
  | none => norm_num
  | some p =>
    dsimp only
    exact ⟨le_min (by norm_num) (le_max_left _ _), min_le_left _ _⟩

theorem occasionFactor_bounds {s1 s2 : String} {occ : Option String} {r : Rat}
    (h : occasionFactor s1 s2 occ = some r) : 0 ≤ r ∧ r ≤ 1 := by
  unfold occasionFactor at h
  cases occ with
  | none =>
    obtain rfl : (1 : Rat) = r := Option.some.inj h
    norm_num
  | some o =>
    dsimp only at h
    split_ifs at h
    · obtain rfl : (1 : Rat) = r := Option.some.inj h
      norm_num
    · cases h1 : OccasionMatcher.calculate_occasion_score s1 o with
      | none => rw [h1] at h; exact absurd h (by simp)
      | some a =>
        cases h2 : OccasionMatcher.calculate_occasion_score s2 o with
        | none => rw [h1, h2] at h; exact absurd h (by simp)
        | some b =>
          rw [h1, h2] at h
          obtain rfl : (a + b) / 2 = r := Option.some.inj h
          have ha := OccasionMatcher.calculate_occasion_score_bounds h1
          have hb := OccasionMatcher.calculate_occasion_score_bounds h2
          constructor <;> [linarith; linarith]

theorem weighted_total_bounds (cs : Rat) (i1 i2 : PyItem) (os : Rat) (p : Option UserPrefs)
    (hcs0 : 0 ≤ cs) (hcs1 : cs ≤ 1) (h0 : 0 ≤ os) (h1 : os ≤ 1) :
    0 ≤ weighted_total cs i1 i2 os p ∧ weighted_total cs i1 i2 os p ≤ 1 := by
  have hs := StyleCompatibility.calculate_style_compatibility_bounds (i1.style.getD "casual")
    (i2.style.getD "casual")
  have hk := calculate_category_compatibility_bounds (i1.category.getD "") (i2.category.getD "")
  have hp := calculate_preference_score_bounds i1 i2 p
  unfold weighted_total
  constructor <;> nlinarith [hs.1, hs.2, hk.1, hk.2, hp.1, hp.2]

end Matching

theorem clamp_eq_self {x : Rat} (h0 : 0 ≤ x) (h1 : x ≤ 1) : min 1 (max 0 x) = x := by
  rw [max_eq_right h0, min_eq_right h1]

/-! ### Claim theorems -/

/-- C1: the category sub-score is claimed to return the lookup-table value
for listed pairs (tops+bottoms 0.9), 0.3 for equal lower-cased categories,
0.5 otherwise.  The code sorts the key pair before the lookup while the
table keys are mostly unsorted, so the `("tops","bottoms") -> 0.9` entry
(and five others) can never be hit: the code returns 0.5 for tops+bottoms
even though the table lists 0.9 for exactly that pair.  Only the already
sorted `("bottoms","shoes")` entry, the same-category rule and the default
behave as claimed. -/
theorem category_compatibility_sorted_key_misses_table :
    Matching.calculate_category_compatibility "tops" "bottoms" = 0.5 ∧
    (Matching.compatible_combinations.find? (fun kv => kv.1 == ("tops", "bottoms"))).map
      Prod.snd = some 0.9 ∧
    Matching.calculate_category_compatibility "bottoms" "shoes" = 0.8 ∧
    Matching.calculate_category_compatibility "shoes" "bottoms" = 0.8 ∧
    Matching.calculate_category_compatibility "tops" "tops" = 0.3 ∧
    Matching.calculate_category_compatibility "hats" "belts" = 0.5 :=
  ⟨rfl, rfl, rfl, rfl, rfl, rfl⟩

/-- C2 (counterexample): the claim fails in three independent ways.
`ColorMatcher.hex_to_hsv` raises `ValueError` (`none`) on the malformed
color `"red"` instead of falling back, and pair scoring through it raises
too.  `ColorTheory.hex_to_rgb` does not return gray on every non-6-hex-digit
string: Python `int(_, 16)` accepts sign forms, so `"+1+2+3"` parses to
`(1,2,3)`.  Worse, the sign form `"-10000"` parses to the negative channel
triple `(-1,0,0)`, on which `colorsys.rgb_to_hsv` raises
`ZeroDivisionError`, so even `ColorTheory` pair scoring can throw. -/
theorem color_engine_misparses_or_raises :
    (validHex6 "red" = false ∧
      ColorMatcher.hex_to_hsv "red" = none ∧
      ColorMatcher.calculate_color_harmony "red" "#FF0000" = none) ∧
    (validHex6 "+1+2+3" = false ∧
      ColorTheory.hex_to_rgbPy "+1+2+3" = (1, 2, 3)) ∧
    (validHex6 "-10000" = false ∧
      ColorTheory.hex_to_rgbPy "-10000" = (-1, 0, 0) ∧
      ColorTheory.calculate_pair_harmonyPy "-10000" "#FF0000" = none) :=
  ⟨⟨by decide, rfl, rfl⟩, ⟨by decide, by decide⟩,
    ⟨by decide, by decide, ColorTheory.calculate_pair_harmonyPy_sign_sample⟩⟩

/-- C2 (amended): what survives of the claim.  On strings free of sign and
whitespace characters, `ColorTheory.hex_to_rgb` falls back to the neutral
gray `(128,128,128)` on every input that is not exactly 6 hex digits after
stripping `#`; and on valid 6-hex-digit colors, `ColorTheory` pair and
group harmony scoring never raise and return values within `[0,1]`.
Outside that fragment the guarantee is false: `ColorMatcher.hex_to_hsv`
raises on malformed colors, sign forms parse instead of falling back, and
sign-form colors can make even `ColorTheory` scoring raise
`ZeroDivisionError` (see the counterexample). -/
theorem color_theory_guarded_fragment (s c1 c2 : String) (l : List String)
    (hs0 : signFree s = true) (hs1 : validHex6 s = false)
    (hc1 : validHex6 c1 = true) (hc2 : validHex6 c2 = true)
    (hl : ∀ c ∈ l, validHex6 c = true) :
    ColorTheory.hex_to_rgbPy s = (128, 128, 128) ∧
    ColorTheory.calculate_pair_harmonyPy c1 c2 =
      some (ColorTheory.calculate_pair_harmony c1 c2) ∧
    0 ≤ ColorTheory.calculate_pair_harmony c1 c2 ∧
    ColorTheory.calculate_pair_harmony c1 c2 ≤ 1 ∧
    ColorTheory.calculate_color_harmony_scorePy l =
      some (ColorTheory.calculate_color_harmony_score l) ∧
    0 ≤ ColorTheory.calculate_color_harmony_score l ∧
    ColorTheory.calculate_color_harmony_score l ≤ 1 := by
  refine ⟨?_, ColorTheory.calculate_pair_harmonyPy_valid hc1 hc2,
    (ColorTheory.calculate_pair_harmony_bounds c1 c2).1,
    (ColorTheory.calculate_pair_harmony_bounds c1 c2).2,
    ColorTheory.calculate_color_harmony_scorePy_valid hl,
    (ColorTheory.calculate_color_harmony_score_bounds l).1,
    (ColorTheory.calculate_color_harmony_score_bounds l).2⟩
  rw [ColorTheory.hex_to_rgbPy_eq_cast_of_signFree hs0, hex_to_rgb_malformed hs1]
  rfl

theorem color_theory_guarded_fragment_witness :
    signFree "red" = true ∧ validHex6 "red" = false ∧
    (ColorTheory.hex_to_rgbPy "red" = (128, 128, 128) ∧
      ColorTheory.calculate_pair_harmonyPy "#FF0000" "#00AA33" =
        some (ColorTheory.calculate_pair_harmony "#FF0000" "#00AA33") ∧
      0 ≤ ColorTheory.calculate_pair_harmony "#FF0000" "#00AA33" ∧
      ColorTheory.calculate_pair_harmony "#FF0000" "#00AA33" ≤ 1 ∧
      ColorTheory.calculate_color_harmony_scorePy ["#FF0000", "#00AA33"] =
        some (ColorTheory.calculate_color_harmony_score ["#FF0000", "#00AA33"]) ∧
      0 ≤ ColorTheory.calculate_color_harmony_score ["#FF0000", "#00AA33"] ∧
      ColorTheory.calculate_color_harmony_score ["#FF0000", "#00AA33"] ≤ 1) :=
  ⟨by decide, by decide, color_theory_guarded_fragment "red" "#FF0000" "#00AA33"
    ["#FF0000", "#00AA33"] (by decide) (by decide) (by decide) (by decide) (by decide)⟩

/-- C3: on valid hex colors, `_calculate_pair_harmony` computes the hue
difference `min(|h1-h2|, 360-|h1-h2|)` in degrees and applies exactly the
claimed rule table in the claimed priority order (`pairHarmonySpec`). -/
theorem pair_harmony_matches_priority_table (c1 c2 : String)
    (_h1 : validHex6 c1 = true) (_h2 : validHex6 c2 = true) :
    ColorTheory.calculate_pair_harmony c1 c2 = pairHarmonySpec c1 c2 := rfl

theorem pair_harmony_matches_priority_table_witness :
    validHex6 "#FF0000" = true ∧ validHex6 "#00AA33" = true ∧
    ColorTheory.calculate_pair_harmony "#FF0000" "#00AA33" =
      pairHarmonySpec "#FF0000" "#00AA33" :=
  ⟨by decide, by decide, pair_harmony_matches_priority_table _ _ (by decide) (by decide)⟩

/-- C5: `calculate_occasion_score` returns 0.5 for occasions outside the
static table, 0.9 for a preferred style (formal+wedding), 0.2 for an
avoided style; but in the remaining branch the code calls
`StyleCompatibility._get_style_formality`, an attribute that does not exist
(the method lives on `OccasionMatcher`), so it raises `AttributeError`
(modelled by `none`) instead of returning
`max(0.3, 1.0 - |formality(style) - formality_level|)` = 0.5 for
bohemian+wedding as the claim states. -/
theorem occasion_score_formality_branch_raises :
    (∀ s o : String,
      OccasionMatcher.OCCASION_STYLES.find? (fun kv => kv.1 == toLowerStr o) = none →
      OccasionMatcher.calculate_occasion_score s o = some 0.5) ∧
    OccasionMatcher.calculate_occasion_score "formal" "wedding" = some 0.9 ∧
    OccasionMatcher.calculate_occasion_score "casual" "wedding" = some 0.2 ∧
    OccasionMatcher.calculate_occasion_score "bohemian" "wedding" = none ∧
    OccasionMatcher.occasionScoreClaim "bohemian" "wedding" = 0.5 := by
  refine ⟨fun s o h => ?_, rfl, rfl, rfl, ?_⟩
  · unfold OccasionMatcher.calculate_occasion_score
    rw [h]
  · have h1 : OccasionMatcher.occasionScoreClaim "bohemian" "wedding" =
        max 0.3 (1 - |(0.4 : Rat) - 0.9|) := rfl
    rw [h1, show (0.4 : Rat) - 0.9 = -(0.5 : Rat) by norm_num, abs_neg,
      abs_of_nonneg (by norm_num : (0 : Rat) ≤ 0.5),
      show (1 : Rat) - 0.5 = 0.5 by norm_num,
      max_eq_right (by norm_num : (0.3 : Rat) ≤ 0.5)]

theorem occasion_score_formality_branch_raises_witness :
    OccasionMatcher.calculate_occasion_score "casual" "gala" = some 0.5 :=
  occasion_score_formality_branch_raises.1 "casual" "gala" rfl

/-- C4: the composite score is the weighted sum
`color*0.30 + style*0.25 + category*0.20 + occasion*0.15 + preference*0.10`
with the occasion sub-score averaged over both items when an occasion is
given and 1.0 when it is not, and the result lies in `[0,1]` (the clamp
never changes the value).  This holds for items whose colors are
well-formed hex and whose occasion branch returns; but the claim's "for
every pair of items and every optional occasion" is false of the code: the
occasion branch inherits the `AttributeError` of `calculate_occasion_score`
(claim C5) — two bohemian items with occasion "wedding" raise — and the
color step itself raises `ZeroDivisionError` on sign-form colors such as
`"-10000"` (claim C2) before any score is returned.  The last two
conjuncts evaluate the code at those failing inputs. -/
theorem item_compatibility_weighted_sum :
    (∀ cs : Rat, ∀ i1 i2 : PyItem, ∀ os : Rat, ∀ prefs : Option Matching.UserPrefs,
      Matching.weighted_total cs i1 i2 os prefs =
        cs * 0.30 +
          StyleCompatibility.calculate_style_compatibility (i1.style.getD "casual")
            (i2.style.getD "casual") * 0.25 +
          Matching.calculate_category_compatibility (i1.category.getD "")
            (i2.category.getD "") * 0.20 +
          os * 0.15 +
          Matching.calculate_preference_score i1 i2 prefs * 0.10) ∧
    (∀ i1 i2 : PyItem, ∀ prefs : Option Matching.UserPrefs,
      (∀ c ∈ i1.colors.getD [] ++ i2.colors.getD [], validHex6 c = true) →
      Matching.calculate_item_compatibility i1 i2 none prefs =
        some (Matching.weighted_total
          (ColorTheory.calculate_color_harmony_score
            (i1.colors.getD [] ++ i2.colors.getD [])) i1 i2 1 prefs)) ∧
    (∀ i1 i2 : PyItem, ∀ o : String, ∀ prefs : Option Matching.UserPrefs, ∀ a b : Rat,
      (∀ c ∈ i1.colors.getD [] ++ i2.colors.getD [], validHex6 c = true) →
      o ≠ "" →
      OccasionMatcher.calculate_occasion_score (i1.style.getD "casual") o = some a →
      OccasionMatcher.calculate_occasion_score (i2.style.getD "casual") o = some b →
      Matching.calculate_item_compatibility i1 i2 (some o) prefs =
        some (Matching.weighted_total
          (ColorTheory.calculate_color_harmony_score
            (i1.colors.getD [] ++ i2.colors.getD [])) i1 i2 ((a + b) / 2) prefs)) ∧
    (∀ i1 i2 : PyItem, ∀ occ : Option String, ∀ prefs : Option Matching.UserPrefs, ∀ r : Rat,
      Matching.calculate_item_compatibility i1 i2 occ prefs = some r → 0 ≤ r ∧ r ≤ 1) ∧
    Matching.calculate_item_compatibility ⟨"1", some [], some "bohemian", some "tops"⟩
      ⟨"2", some [], some "bohemian", some "bottoms"⟩ (some "wedding") none = none ∧
    Matching.calculate_item_compatibility ⟨"1", some ["-10000"], some "casual", some "tops"⟩
      ⟨"2", some ["#FF0000"], some "casual", some "bottoms"⟩ none none = none := by
  refine ⟨fun cs i1 i2 os prefs => rfl, ?_, ?_, ?_, rfl, ?_⟩
  · intro i1 i2 prefs hcols
    have hc := ColorTheory.calculate_color_harmony_scorePy_valid hcols
    have hcb := ColorTheory.calculate_color_harmony_score_bounds
      (i1.colors.getD [] ++ i2.colors.getD [])
    have hwb := Matching.weighted_total_bounds _ i1 i2 1 prefs hcb.1 hcb.2
      (by norm_num) (by norm_num)
    unfold Matching.calculate_item_compatibility
    rw [hc]
    dsimp only [Matching.occasionFactor]
    rw [clamp_eq_self hwb.1 hwb.2]
  · intro i1 i2 o prefs a b hcols ho ha hb
    have hc := ColorTheory.calculate_color_harmony_scorePy_valid hcols
    have hcb := ColorTheory.calculate_color_harmony_score_bounds
      (i1.colors.getD [] ++ i2.colors.getD [])
    have h2 := OccasionMatcher.calculate_occasion_score_bounds ha
    have h3 := OccasionMatcher.calculate_occasion_score_bounds hb
    have hosb : 0 ≤ (a + b) / 2 ∧ (a + b) / 2 ≤ 1 := by
      constructor <;> [linarith; linarith]
    have hwb := Matching.weighted_total_bounds _ i1 i2 ((a + b) / 2) prefs hcb.1 hcb.2
      hosb.1 hosb.2
    unfold Matching.calculate_item_compatibility
    rw [hc]
    dsimp only [Matching.occasionFactor]
    rw [if_neg ho, ha, hb]
    dsimp only
    rw [clamp_eq_self hwb.1 hwb.2]
  · intro i1 i2 occ prefs r h
    unfold Matching.calculate_item_compatibility at h
    cases hcs : ColorTheory.calculate_color_harmony_scorePy
        (i1.colors.getD [] ++ i2.colors.getD []) with
    | none => rw [hcs] at h; exact absurd h (by simp)
    | some cs =>
      rw [hcs] at h
      dsimp only at h
      cases hof : Matching.occasionFactor (i1.style.getD "casual")
          (i2.style.getD "casual") occ with
      | none => rw [hof] at h; exact absurd h (by simp)
      | some os =>
        rw [hof] at h
        dsimp only at h
        obtain rfl : min 1 (max 0 (Matching.weighted_total cs i1 i2 os prefs)) = r :=
          Option.some.inj h
        exact ⟨le_min (by norm_num) (le_max_left _ _), min_le_left _ _⟩
  · have hscore : ColorTheory.calculate_color_harmony_scorePy
        ((⟨"1", some ["-10000"], some "casual", some "tops"⟩ : PyItem).colors.getD [] ++
          (⟨"2", some ["#FF0000"], some "casual", some "bottoms"⟩ : PyItem).colors.getD []) =
        none := by
      show ColorTheory.calculate_color_harmony_scorePy ["-10000", "#FF0000"] = none
      exact ColorTheory.calculate_color_harmony_scorePy_sign_sample
    unfold Matching.calculate_item_compatibility
    rw [hscore]

theorem item_compatibility_weighted_sum_witness :
    (∀ c ∈ (["#4A90E2"] ++ ["#000000"] : List String), validHex6 c = true) ∧
    ("work" : String) ≠ "" ∧
    OccasionMatcher.calculate_occasion_score "business" "work" = some 0.9 ∧
    OccasionMatcher.calculate_occasion_score "casual" "work" = some 0.2 ∧
    Matching.calculate_item_compatibility ⟨"1", some ["#4A90E2"], some "business", some "tops"⟩
      ⟨"2", some ["#000000"], some "casual", some "bottoms"⟩ (some "work") none =
      some (Matching.weighted_total
        (ColorTheory.calculate_color_harmony_score (["#4A90E2"] ++ ["#000000"]))
        ⟨"1", some ["#4A90E2"], some "business", some "tops"⟩
        ⟨"2", some ["#000000"], some "casual", some "bottoms"⟩ ((0.9 + 0.2) / 2) none) :=
  ⟨by decide, by decide, rfl, rfl,
    item_compatibility_weighted_sum.2.2.1 _ _ "work" none 0.9 0.2 (by decide) (by decide)
      rfl rfl⟩

/-- C6 (counterexample): for the cited outfit_matcher variant, the pair
("casual", "casuals") is equal in neither lower case, listed in neither
direction of the adjacency table, and yet scores 0.6 (the partial
substring tier), not the claimed floor 0.3. -/
theorem style_matcher_partial_match_breaks_floor :
    toLowerStr "casual" ≠ toLowerStr "casuals" ∧
    ("casuals" ∉ dictGet StyleMatcher.STYLE_COMPATIBILITY "casual" []) ∧
    ("casual" ∉ dictGet StyleMatcher.STYLE_COMPATIBILITY "casuals" []) ∧
    StyleMatcher.calculate_style_compatibility "casual" "casuals" = 0.6 ∧
    (0.6 : Rat) ≠ 0.3 := by
  refine ⟨by decide, by decide, by decide, rfl, by norm_num⟩

/-- C6 (amended): the intelligent_matching `StyleCompatibility` variant
follows the claimed rule exactly — 1.0 on a case-insensitive match, 0.8
when either adjacency entry lists the other, floor 0.3 otherwise — and both
variants give `compatibility("casual","formal") = 0.3`; the outfit_matcher
`StyleMatcher` variant additionally returns 0.6 for unlisted pairs that
match by substring (see the counterexample). -/
theorem style_compatibility_amended :
    (∀ s1 s2 : String, StyleCompatibility.calculate_style_compatibility s1 s2 =
      styleCompatibilitySpec s1 s2) ∧
    StyleCompatibility.calculate_style_compatibility "casual" "formal" = 0.3 ∧
    StyleMatcher.calculate_style_compatibility "casual" "formal" = 0.3 := by
  refine ⟨fun s1 s2 => ?_, rfl, rfl⟩
  unfold StyleCompatibility.calculate_style_compatibility styleCompatibilitySpec
  by_cases h1 : toLowerStr s1 = toLowerStr s2
  · simp [h1]
  · by_cases h2 : toLowerStr s2 ∈ dictGet StyleCompatibility.STYLE_COMPATIBILITY
        (toLowerStr s1) []
    · simp [h1, h2]
    · by_cases h3 : toLowerStr s1 ∈ dictGet StyleCompatibility.STYLE_COMPATIBILITY
          (toLowerStr s2) []
      · simp [h1, h2, h3]
      · simp [h1, h2, h3]

/-- C7: the combination generator always returns at most 10 candidates, and
a pool containing only "tops"-category items yields the empty list because
every outfit structure requires a "bottoms" or "dresses" item. -/
theorem generate_outfit_combinations_bounded :
    (∀ items : List PyItem, (Recommendations.generate_outfit_combinations items).length ≤ 10) ∧
    (∀ items : List PyItem, (∀ i ∈ items, i.category.getD "unknown" = "tops") →
      Recommendations.generate_outfit_combinations items = []) := by
  constructor
  · intro items
    unfold Recommendations.generate_outfit_combinations
    rw [List.length_take]
    exact min_le_left _ _
  · intro items h
    have hany : ∀ c : String, c ≠ "tops" →
        (items.any (fun i => i.category.getD "unknown" == c)) = false := by
      intro c hc
      rw [List.any_eq_false]
      intro i hi
      simp only [beq_iff_eq, h i hi]
      exact fun hcon => hc hcon.symm
    unfold Recommendations.generate_outfit_combinations Recommendations.outfit_structures
    simp only [List.filterMap_cons, List.filterMap_nil, List.all_cons, List.all_nil,
      hany "bottoms" (by decide), hany "dresses" (by decide), Bool.and_false, Bool.false_and,
      Bool.and_true, Bool.true_and, Bool.false_eq_true, if_false, List.take_nil]

theorem generate_outfit_combinations_bounded_witness :
    (Recommendations.generate_outfit_combinations
      [⟨"1", none, none, some "tops"⟩, ⟨"2", none, none, some "tops"⟩]).length ≤ 10 ∧
    Recommendations.generate_outfit_combinations
      [⟨"1", none, none, some "tops"⟩, ⟨"2", none, none, some "tops"⟩] = [] :=
  ⟨generate_outfit_combinations_bounded.1 _,
    generate_outfit_combinations_bounded.2 _ (by decide)⟩

/-- C8: the preference boost is the sum of four additive indicator boosts
(0 for a profile whose preferred-color set, style-keyword set and
occasion-preference map are all empty, for every outfit and occasion), and
it enters the final score only through `min(total_boost, 1.0) * 0.15`, so
its contribution never exceeds 0.15. -/
theorem preference_boost_empty_profile_and_cap :
    (∀ (p : RecommendationServices.UserStyleProfile) (occ : String) (cs ss : List String),
      p.preferred_colors = [] → p.style_keywords = [] → p.occasion_preferences = [] →
      RecommendationServices.preference_boost p occ cs ss = 0) ∧
    (∀ sim coh b : Rat, RecommendationServices.final_match_score sim coh b =
      0.6 * sim + 0.25 * coh + 0.15 * min b 1) ∧
    (∀ sim coh b : Rat, 1 ≤ b →
      RecommendationServices.final_match_score sim coh b = 0.6 * sim + 0.25 * coh + 0.15) ∧
    (∀ sim coh b : Rat, RecommendationServices.final_match_score sim coh b ≤
      0.6 * sim + 0.25 * coh + 0.15) := by
  refine ⟨?_, fun sim coh b => rfl, ?_, ?_⟩
  · intro p occ cs ss h1 h2 h3
    simp [RecommendationServices.preference_boost, dictGet, h1, h2, h3]
  · intro sim coh b hb
    unfold RecommendationServices.final_match_score
    rw [min_eq_right hb, mul_one]
  · intro sim coh b
    have h := min_le_right b 1
    unfold RecommendationServices.final_match_score
    linarith

theorem preference_boost_empty_profile_and_cap_witness :
    RecommendationServices.preference_boost ⟨[], [], []⟩ "wedding" ["red"] ["casual"] = 0 ∧
    RecommendationServices.final_match_score 1 1 2 = 0.6 * 1 + 0.25 * 1 + 0.15 :=
  ⟨preference_boost_empty_profile_and_cap.1 _ _ _ _ rfl rfl rfl,
    preference_boost_empty_profile_and_cap.2.2.1 1 1 2 (by norm_num)⟩

/-- C9: `_calculate_pair_harmony` is symmetric in its two color arguments,
for all strings. -/
theorem pair_harmony_symmetric (a b : String) :
    ColorTheory.calculate_pair_harmony a b = ColorTheory.calculate_pair_harmony b a :=
  ColorTheory.calculate_pair_harmony_comm a b

/-- C10: `calculate_color_harmony_score` depends only on the set of
distinct colors in its input: two lists with the same members (in any
order, with any duplicate multiplicities) get the same score. -/
theorem harmony_score_set_invariant (l1 l2 : List String)
    (h : ∀ c : String, c ∈ l1 ↔ c ∈ l2) :
    ColorTheory.calculate_color_harmony_score l1 =
      ColorTheory.calculate_color_harmony_score l2 := by
  rw [ColorTheory.harmony_score_eq_dedup, ColorTheory.harmony_score_eq_dedup]
  apply ColorTheory.groupHarmonyDedup_perm
  refine (List.perm_ext_iff_of_nodup (List.nodup_dedup _) (List.nodup_dedup _)).2 ?_
  intro a
  simpa [List.mem_dedup] using h a

theorem harmony_score_set_invariant_witness :
    ColorTheory.calculate_color_harmony_score ["#FF0000", "#0000FF"] =
      ColorTheory.calculate_color_harmony_score ["#0000FF", "#FF0000", "#FF0000"] :=
  harmony_score_set_invariant _ _ (by intro c; constructor <;> (intro hc; simp at hc ⊢; tauto))

